import Mathlib

/-!
Verification of the progressive-disclosure graph visualization engine of the
KnowledgeCatalyst repository (frontend/app.py and frontend/cytoscape_graph.py).

The Python source is shallowly embedded: property bags become association
lists over a tagged scalar-or-null value type, Python sets become `Finset
String`, and the rendering pipeline becomes total Lean functions returning an
explicit payload variant type.
-/

/-- A property value as stored in a node's property bag: a tagged
scalar-or-null variant (string, integer, or null). -/
inductive PValue where
  | vstr (s : String)
  | vint (n : Int)
  | vnull
deriving DecidableEq, Repr

/-- Python truthiness of a property value: a string is truthy iff nonempty,
an integer iff nonzero, null is falsy. -/
def truthy : PValue → Bool
  | .vstr s => s ≠ ""
  | .vint n => n ≠ 0
  | .vnull => false

/-- Python `str()` applied to a property value. -/
def pyStr : PValue → String
  | .vstr s => s
  | .vint n => toString n
  | .vnull => "None"

/-- A Neo4j node record as consumed by the frontend: element id, ordered
label list, and property bag. -/
structure Node where
  element_id : String
  labels : List String
  properties : List (String × PValue)
deriving DecidableEq, Repr

/-- A Neo4j relationship record. `element_id` is optional, mirroring
`rel.get('element_id', ...)` with a computed default in the source; the
endpoint ids mirror `rel.get(..., '')` and so are plain strings. -/
structure Relationship where
  element_id : Option String
  start_node_element_id : String
  end_node_element_id : String
  type : String
deriving DecidableEq, Repr

/-- Dictionary lookup `properties.get(key)`: first binding of the key, if
any. -/
def pget (properties : List (String × PValue)) (key : String) : Option PValue :=
  (properties.find? (fun kv => kv.1 == key)).map (fun kv => kv.2)

/-- Python `a or b` on an optional property value (`dict.get` returns `None`
when the key is absent): yields the value when present and truthy, otherwise
the right operand. -/
def pyOrV (o : Option PValue) (rest : PValue) : PValue :=
  match o with
  | some v => if truthy v then v else rest
  | none => rest

/-! ## app.py: get_visible_nodes -/

/-- Step 1 of `get_visible_nodes` (app.py lines 248-253): ids of all nodes
whose label list is nonempty and whose first label is `'Document'`. -/
def documentIds (all_nodes : List Node) : Finset String :=
  ((all_nodes.filter (fun n => n.labels.head? == some "Document")).map
    Node.element_id).toFinset

/-- Loop body shared by steps 2 and 3 of `get_visible_nodes` (app.py lines
256-274): given a reference id set (document ids or expanded ids), an edge
adds the opposite endpoint of any member to the accumulator. -/
def neighborStep (ids : Finset String) (acc : Finset String) (rel : Relationship) :
    Finset String :=
  let acc1 := if rel.start_node_element_id ∈ ids then
      insert rel.end_node_element_id acc else acc
  if rel.end_node_element_id ∈ ids then
    insert rel.start_node_element_id acc1 else acc1

/-- The visible-id set computed by the `data` branch of `get_visible_nodes`
(app.py lines 243-274): document ids, then one hop around documents, then —
only when the expansion set is nonempty, mirroring `if expanded_node_ids:` —
one hop around expanded ids. -/
def visibleIdsData (all_nodes : List Node) (all_relationships : List Relationship)
    (expanded_node_ids : Finset String) : Finset String :=
  let document_ids := documentIds all_nodes
  let v2 := all_relationships.foldl (neighborStep document_ids) document_ids
  if expanded_node_ids = ∅ then v2
  else all_relationships.foldl (neighborStep expanded_node_ids) v2

/-- app.py `get_visible_nodes`: schema mode returns the inputs unchanged;
data mode filters nodes by the visible-id set and keeps a relationship only
when both endpoints are in the visible-id set (lines 239-284). -/
def get_visible_nodes (all_nodes : List Node) (all_relationships : List Relationship)
    (expanded_node_ids : Finset String) (view_type : String) :
    List Node × List Relationship :=
  if view_type = "schema" then (all_nodes, all_relationships)
  else
    let v := visibleIdsData all_nodes all_relationships expanded_node_ids
    (all_nodes.filter (fun n => decide (n.element_id ∈ v)),
     all_relationships.filter (fun r =>
       decide (r.start_node_element_id ∈ v ∧ r.end_node_element_id ∈ v)))

/-- C4: `get_visible_nodes` in schema mode is the identity on the node and
relationship lists, for every expansion set. -/
theorem c4_schema_identity (all_nodes : List Node) (all_relationships : List Relationship)
    (expanded_node_ids : Finset String) :
    get_visible_nodes all_nodes all_relationships expanded_node_ids "schema" =
      (all_nodes, all_relationships) := by
  simp [get_visible_nodes]

lemma mem_neighborStep (ids acc : Finset String) (r : Relationship) (x : String) :
    x ∈ neighborStep ids acc r ↔
      x ∈ acc ∨ (r.start_node_element_id ∈ ids ∧ x = r.end_node_element_id)
        ∨ (r.end_node_element_id ∈ ids ∧ x = r.start_node_element_id) := by
  simp only [neighborStep]
  split_ifs with h1 h2 <;> simp [Finset.mem_insert] <;> tauto

lemma mem_foldl_neighborStep (ids : Finset String) (rels : List Relationship)
    (acc : Finset String) (x : String) :
    x ∈ rels.foldl (neighborStep ids) acc ↔
      x ∈ acc ∨ ∃ r ∈ rels,
        (r.start_node_element_id ∈ ids ∧ x = r.end_node_element_id) ∨
        (r.end_node_element_id ∈ ids ∧ x = r.start_node_element_id) := by
  induction rels generalizing acc with
  | nil => simp
  | cons r rs ih =>
    simp only [List.foldl_cons, ih, mem_neighborStep, List.mem_cons]
    constructor
    · rintro (((h | h | h) | ⟨r', hr', hc⟩))
      · exact Or.inl h
      · exact Or.inr ⟨r, Or.inl rfl, Or.inl h⟩
      · exact Or.inr ⟨r, Or.inl rfl, Or.inr h⟩
      · exact Or.inr ⟨r', Or.inr hr', hc⟩
    · rintro (h | ⟨r', (rfl | hr'), hc⟩)
      · exact Or.inl (Or.inl h)
      · exact Or.inl (Or.inr hc)
      · exact Or.inr ⟨r', hr', hc⟩

lemma mem_documentIds (all_nodes : List Node) (x : String) :
    x ∈ documentIds all_nodes ↔
      ∃ n ∈ all_nodes, n.labels.head? = some "Document" ∧ n.element_id = x := by
  simp [documentIds, List.mem_filter]
  tauto

lemma mem_visibleIdsData (ns : List Node) (rs : List Relationship)
    (E : Finset String) (x : String) :
    x ∈ visibleIdsData ns rs E ↔
      x ∈ documentIds ns
      ∨ (∃ r ∈ rs,
          (r.start_node_element_id ∈ documentIds ns ∧ x = r.end_node_element_id) ∨
          (r.end_node_element_id ∈ documentIds ns ∧ x = r.start_node_element_id))
      ∨ (∃ r ∈ rs,
          (r.start_node_element_id ∈ E ∧ x = r.end_node_element_id) ∨
          (r.end_node_element_id ∈ E ∧ x = r.start_node_element_id)) := by
  unfold visibleIdsData
  split_ifs with hE
  · subst hE
    rw [mem_foldl_neighborStep]
    simp
  · rw [mem_foldl_neighborStep, mem_foldl_neighborStep]
    exact or_assoc

/-- The visibility condition spelled out by the specification for `data`
mode, written independently of the implementation: a node id is visible iff
it belongs to a node whose first label is the anchor type `'Document'`, or
it is the other endpoint of a relationship touching such a Document node, or
it is the other endpoint of a relationship touching an id of the expansion
set (one non-recursive step). -/
def dataVisibleSpec (all_nodes : List Node) (all_relationships : List Relationship)
    (expansion : Finset String) (x : String) : Bool :=
  all_nodes.any (fun n => n.labels.head? == some "Document" && n.element_id == x)
  || all_relationships.any (fun r =>
       (all_nodes.any (fun n => n.labels.head? == some "Document" &&
          n.element_id == r.start_node_element_id) && (x == r.end_node_element_id))
       || (all_nodes.any (fun n => n.labels.head? == some "Document" &&
          n.element_id == r.end_node_element_id) && (x == r.start_node_element_id)))
  || all_relationships.any (fun r =>
       (decide (r.start_node_element_id ∈ expansion) && (x == r.end_node_element_id))
       || (decide (r.end_node_element_id ∈ expansion) && (x == r.start_node_element_id)))

lemma dataVisibleSpec_iff_mem (ns : List Node) (rs : List Relationship)
    (E : Finset String) (x : String) :
    dataVisibleSpec ns rs E x = true ↔ x ∈ visibleIdsData ns rs E := by
  rw [mem_visibleIdsData]
  simp only [dataVisibleSpec, Bool.or_eq_true, List.any_eq_true, Bool.and_eq_true,
    beq_iff_eq, decide_eq_true_eq, mem_documentIds]
  aesop

/-- C3: in `data` mode, `get_visible_nodes` returns exactly the nodes whose
element id satisfies the specification's visibility condition: nodes whose
first label is the anchor type `'Document'`, other endpoints of
relationships touching a Document node, and other endpoints of relationships
touching an id of the expansion set — a single non-recursive expansion step. -/
theorem c3_data_visibility_characterization (ns : List Node)
    (rs : List Relationship) (E : Finset String) :
    (get_visible_nodes ns rs E "data").1 =
      ns.filter (fun n => dataVisibleSpec ns rs E n.element_id) := by
  have hd : ¬ (("data" : String) = "schema") := by decide
  simp only [get_visible_nodes, if_neg hd]
  refine List.filter_congr ?_
  intro n _
  cases hb : dataVisibleSpec ns rs E n.element_id
  · rw [decide_eq_false_iff_not]
    intro hmem
    rw [← dataVisibleSpec_iff_mem] at hmem
    simp [hb] at hmem
  · rw [decide_eq_true_eq]
    exact (dataVisibleSpec_iff_mem ns rs E n.element_id).mp hb

/-- C10: in `data` mode, `get_visible_nodes` is monotone in the expansion
set: enlarging the expansion set can only add visible nodes and
relationships, never remove any. -/
theorem c10_expansion_monotone (ns : List Node) (rs : List Relationship)
    (E E' : Finset String) (hsub : E ⊆ E') :
    (∀ n ∈ (get_visible_nodes ns rs E "data").1,
        n ∈ (get_visible_nodes ns rs E' "data").1) ∧
    (∀ r ∈ (get_visible_nodes ns rs E "data").2,
        r ∈ (get_visible_nodes ns rs E' "data").2) := by
  have hd : ¬ (("data" : String) = "schema") := by decide
  have hmono : ∀ x, x ∈ visibleIdsData ns rs E → x ∈ visibleIdsData ns rs E' := by
    intro x hx
    rw [mem_visibleIdsData] at hx ⊢
    rcases hx with h | h | ⟨r, hr, hc⟩
    · exact Or.inl h
    · exact Or.inr (Or.inl h)
    · refine Or.inr (Or.inr ⟨r, hr, ?_⟩)
      rcases hc with ⟨h1, h2⟩ | ⟨h1, h2⟩
      · exact Or.inl ⟨hsub h1, h2⟩
      · exact Or.inr ⟨hsub h1, h2⟩
  constructor
  · intro n hn
    simp only [get_visible_nodes, if_neg hd, List.mem_filter,
      decide_eq_true_eq] at hn ⊢
    exact ⟨hn.1, hmono _ hn.2⟩
  · intro r hr
    simp only [get_visible_nodes, if_neg hd, List.mem_filter,
      decide_eq_true_eq] at hr ⊢
    exact ⟨hr.1, hmono _ hr.2.1, hmono _ hr.2.2⟩

/-- Demonstration nodes and relationships used by concrete witnesses: a
Document node, a Chunk node, an entity node, and a two-hop chain of
relationships between them. -/
def dNode : Node := ⟨"d1", ["Document"], []⟩

def cNode : Node := ⟨"c1", ["Chunk"], []⟩

def eNode : Node := ⟨"e1", ["__Entity__"], []⟩

def relDC : Relationship := ⟨some "r1", "d1", "c1", "HAS_CHUNK"⟩

def relCE : Relationship := ⟨some "r2", "c1", "e1", "MENTIONS"⟩

/-- Witness for C10 at a concrete input: expanding the Chunk node preserves
everything visible under the empty expansion set. -/
theorem c10_expansion_monotone_witness :
    (∅ : Finset String) ⊆ {"c1"} ∧
    ((∀ n ∈ (get_visible_nodes [dNode, cNode, eNode] [relDC, relCE] ∅ "data").1,
        n ∈ (get_visible_nodes [dNode, cNode, eNode] [relDC, relCE] {"c1"} "data").1) ∧
     (∀ r ∈ (get_visible_nodes [dNode, cNode, eNode] [relDC, relCE] ∅ "data").2,
        r ∈ (get_visible_nodes [dNode, cNode, eNode] [relDC, relCE] {"c1"} "data").2)) :=
  ⟨by decide, c10_expansion_monotone [dNode, cNode, eNode] [relDC, relCE] ∅ {"c1"} (by decide)⟩

/-! ## cytoscape_graph.py: escaping and element mapping -/

/-- One character of Python `html.escape` (quote=True). The stdlib performs
sequential replacements of `&`, `<`, `>`, `"`, `'`; since no replacement
output contains a character replaced by a later pass, this per-character map
is extensionally identical. -/
def htmlEscapeChar (c : Char) : String :=
  if c = '&' then "&amp;"
  else if c = '<' then "&lt;"
  else if c = '>' then "&gt;"
  else if c = '"' then "&quot;"
  else if c = Char.ofNat 39 then "&#x27;"
  else String.singleton c

/-- Python `html.escape` with default quoting. -/
def htmlEscape (s : String) : String :=
  String.join (s.toList.map htmlEscapeChar)

/-- cytoscape_graph.py `_escape_property_value` (lines 105-109): HTML-escape
string values, return every other value unchanged. -/
def escape_property_value : PValue → PValue
  | .vstr s => .vstr (htmlEscape s)
  | v => v

/-- cytoscape_graph.py `COLOR_SCHEME` (lines 35-46). -/
def COLOR_SCHEME : List (String × String) :=
  [("Document", "#3b82f6"),
   ("Chunk", "#8b5cf6"),
   ("Person", "#10b981"),
   ("Organization", "#f59e0b"),
   ("Location", "#ef4444"),
   ("Event", "#ec4899"),
   ("Concept", "#06b6d4"),
   ("Technology", "#8b5cf6"),
   ("__Community__", "#64748b"),
   ("__Entity__", "#94a3b8")]

/-- A layout-configuration value: string, number, or boolean, as found in
the `LAYOUT_CONFIGS` dictionaries. -/
inductive Cv where
  | s (v : String)
  | n (v : ℚ)
  | b (v : Bool)
deriving DecidableEq, Repr

/-- The `'cola'` entry of `LAYOUT_CONFIGS` (lines 50-61), also the fallback
preset used for unknown layout names. -/
def colaConfig : List (String × Cv) :=
  [("name", .s "cola"),
   ("animate", .b true),
   ("animationDuration", .n 1000),
   ("maxSimulationTime", .n 4000),
   ("ungrabifyWhileSimulating", .b true),
   ("fit", .b true),
   ("avoidOverlap", .b true),
   ("handleDisconnected", .b true),
   ("convergenceThreshold", .n 0.01),
   ("nodeSpacing", .n 50)]

/-- cytoscape_graph.py `LAYOUT_CONFIGS` (lines 49-102). -/
def LAYOUT_CONFIGS : List (String × List (String × Cv)) :=
  [("cola", colaConfig),
   ("cose",
    [("name", .s "cose"),
     ("animate", .b true),
     ("animationDuration", .n 1000),
     ("animationEasing", .s "ease-out"),
     ("nodeRepulsion", .n 400000),
     ("idealEdgeLength", .n 100),
     ("edgeElasticity", .n 100),
     ("gravity", .n 80),
     ("numIter", .n 1000),
     ("initialTemp", .n 200),
     ("coolingFactor", .n 0.95),
     ("minTemp", .n 1.0)]),
   ("dagre",
    [("name", .s "dagre"),
     ("animate", .b true),
     ("animationDuration", .n 800),
     ("rankDir", .s "TB"),
     ("ranker", .s "tight-tree"),
     ("nodeSep", .n 50),
     ("edgeSep", .n 10),
     ("rankSep", .n 75),
     ("fit", .b true),
     ("padding", .n 30)]),
   ("circle",
    [("name", .s "circle"),
     ("animate", .b true),
     ("animationDuration", .n 800),
     ("animationEasing", .s "ease-in-out-cubic"),
     ("avoidOverlap", .b true),
     ("startAngle", .n 4.71238898),
     ("clockwise", .b true)]),
   ("random",
    [("name", .s "random"),
     ("animate", .b false),
     ("fit", .b true)])]

/-- The `data` record of a Cytoscape node element (lines 163-175). -/
structure CyNodeData where
  id : String
  label : String
  labels : List String
  color : String
  size : Nat
  tooltip : String
  properties : List (String × PValue)
  expanded : Bool
deriving DecidableEq, Repr

/-- A Cytoscape node element: `data` record plus `classes` string. -/
structure CyNode where
  data : CyNodeData
  classes : String
deriving DecidableEq, Repr

/-- The `data` record of a Cytoscape edge element (lines 190-197). -/
structure CyEdgeData where
  id : String
  source : String
  target : String
  label : String
deriving DecidableEq, Repr

/-- A Cytoscape edge element. -/
structure CyEdge where
  data : CyEdgeData
deriving DecidableEq, Repr

/-- The elements dictionary returned by `_convert_to_cytoscape_format`. -/
structure Elements where
  nodes : List CyNode
  edges : List CyEdge
deriving DecidableEq, Repr

/-- The caption chain of `_convert_to_cytoscape_format` (lines 135-139):
`properties.get('id') or properties.get('name') or properties.get('fileName')
or (labels[0] if labels else 'Node')`. -/
def node_caption (node : Node) : PValue :=
  pyOrV (pget node.properties "id")
    (pyOrV (pget node.properties "name")
      (pyOrV (pget node.properties "fileName")
        (.vstr (node.labels.head?.getD "Node"))))

/-- The reserved property keys excluded from tooltip display (line 153). -/
def reservedKeys : List String := ["embedding", "text", "summary"]

/-- The `tooltip_parts` list built for one node (lines 146-155): escaped
caption in a strong tag, the comma-joined label list, an expanded marker
when applicable, and one `key: value` part per non-reserved truthy property,
with the value escaped and truncated to 100 characters. -/
def tooltip_parts (caption : PValue) (labels : List String) (node_id : String)
    (expanded_nodes : Finset String) (properties : List (String × PValue)) :
    List String :=
  let base := ["<strong>" ++ pyStr (escape_property_value caption) ++ "</strong>",
               "Type: " ++ String.intercalate ", " labels]
  let base := if node_id ∈ expanded_nodes then base ++ ["<em>Expanded</em>"] else base
  base ++ properties.filterMap (fun kv =>
    if !(reservedKeys.contains kv.1) && truthy kv.2 then
      some (kv.1 ++ ": " ++ (pyStr (escape_property_value kv.2)).take 100)
    else none)

/-- The node-conversion loop body of `_convert_to_cytoscape_format` (lines
129-177), producing the Cytoscape element for one node. -/
def nodeToCy (expanded_nodes : Finset String) (color_scheme : List (String × String))
    (node : Node) : CyNode :=
  let node_id := node.element_id
  let labels := node.labels
  let properties := node.properties
  let caption := node_caption node
  let node_color := match labels.head? with
    | some l0 => (List.lookup l0 color_scheme).getD "#94a3b8"
    | none => "#94a3b8"
  let tooltip := String.intercalate "<br>"
    (tooltip_parts caption labels node_id expanded_nodes properties)
  let size : Nat := if node_id ∈ expanded_nodes then 25 else 20
  { data := { id := node_id,
              label := (pyStr caption).take 30,
              labels := labels,
              color := node_color,
              size := size,
              tooltip := tooltip,
              properties := properties,
              expanded := decide (node_id ∈ expanded_nodes) },
    classes := if node_id ∈ expanded_nodes then "expanded" else "" }

/-- cytoscape_graph.py `_convert_to_cytoscape_format` (lines 112-200): map
every node, then emit an edge only when both endpoint ids are truthy
(nonempty) and present in the node-id set. -/
def _convert_to_cytoscape_format (nodes : List Node) (relationships : List Relationship)
    (expanded_nodes : Finset String) (color_scheme : List (String × String)) :
    Elements :=
  let cy_nodes := nodes.map (nodeToCy expanded_nodes color_scheme)
  let node_ids : Finset String := (nodes.map Node.element_id).toFinset
  let cy_edges := relationships.filterMap (fun rel =>
    let start_id := rel.start_node_element_id
    let end_id := rel.end_node_element_id
    if start_id ≠ "" ∧ end_id ≠ "" ∧ start_id ∈ node_ids ∧ end_id ∈ node_ids then
      some { data := { id := rel.element_id.getD (start_id ++ "-" ++ end_id),
                       source := start_id,
                       target := end_id,
                       label := rel.type } }
    else none)
  { nodes := cy_nodes, edges := cy_edges }

/-! ## JSON serialization (json.dumps with ensure_ascii, as used at the
template boundary, lines 219-221) -/

/-- A JSON value. -/
inductive Jv where
  | jnull
  | jbool (b : Bool)
  | jnum (n : Int)
  | jstr (s : String)
  | jarr (elems : List Jv)
  | jobj (fields : List (String × Jv))

/-- Lowercase hexadecimal digit. -/
def hexDigit (n : Nat) : Char :=
  if n < 10 then Char.ofNat (48 + n) else Char.ofNat (87 + n)

/-- Four lowercase hex digits. -/
def hex4 (n : Nat) : String :=
  String.mk [hexDigit (n / 4096 % 16), hexDigit (n / 256 % 16),
             hexDigit (n / 16 % 16), hexDigit (n % 16)]

/-- `\uXXXX` escape for a code point outside the printable ASCII range, with
a surrogate pair beyond the basic multilingual plane, as produced by
`json.dumps` with its default `ensure_ascii=True`. -/
def unicodeEscape (n : Nat) : String :=
  if n < 65536 then "\\u" ++ hex4 n
  else
    let m := n - 65536
    "\\u" ++ hex4 (55296 + m / 1024) ++ "\\u" ++ hex4 (56320 + m % 1024)

/-- One character of a JSON string literal as emitted by `json.dumps`:
backslash and quote are escaped, the short escapes are used for the common
control characters, every other character outside `0x20`-`0x7e` gets a
`\uXXXX` escape, and all remaining characters pass through unchanged — in
particular `<`, `>` and `&` are NOT escaped. -/
def jsonEscapeChar (c : Char) : String :=
  if c = '"' then "\\\""
  else if c = '\\' then "\\\\"
  else if c = Char.ofNat 10 then "\\n"
  else if c = Char.ofNat 13 then "\\r"
  else if c = Char.ofNat 9 then "\\t"
  else if c = Char.ofNat 8 then "\\b"
  else if c = Char.ofNat 12 then "\\f"
  else if c.toNat < 32 ∨ 126 < c.toNat then unicodeEscape c.toNat
  else String.singleton c

/-- A JSON string literal: quoted, character-escaped. -/
def jsonQuote (s : String) : String :=
  "\"" ++ String.join (s.toList.map jsonEscapeChar) ++ "\""

mutual

/-- `json.dumps` with default separators (`", "` and `": "`). -/
def jsonDumps : Jv → String
  | .jnull => "null"
  | .jbool true => "true"
  | .jbool false => "false"
  | .jnum n => toString n
  | .jstr s => jsonQuote s
  | .jarr xs => "[" ++ jsonDumpsList xs ++ "]"
  | .jobj fs => "\x7b" ++ jsonDumpsFields fs ++ "\x7d"

/-- Comma-joined serialization of array elements. -/
def jsonDumpsList : List Jv → String
  | [] => ""
  | [x] => jsonDumps x
  | x :: xs => jsonDumps x ++ ", " ++ jsonDumpsList xs

/-- Comma-joined serialization of object fields. -/
def jsonDumpsFields : List (String × Jv) → String
  | [] => ""
  | [kv] => jsonQuote kv.1 ++ ": " ++ jsonDumps kv.2
  | kv :: fs => jsonQuote kv.1 ++ ": " ++ jsonDumps kv.2 ++ ", " ++ jsonDumpsFields fs

end

/-- Whether `pattern` is a prefix of `s` (over character lists). -/
def isPrefixL : List Char → List Char → Bool
  | [], _ => true
  | _ :: _, [] => false
  | a :: as, b :: bs => a == b && isPrefixL as bs

/-- Whether `pattern` occurs as a contiguous substring of `s` (over
character lists). -/
def containsL (pattern : List Char) : List Char → Bool
  | [] => isPrefixL pattern []
  | c :: cs => isPrefixL pattern (c :: cs) || containsL pattern cs

/-- Whether `pattern` occurs as a contiguous substring of `s`. -/
def containsSubstring (s pattern : String) : Bool :=
  containsL pattern.toList s.toList

/-- Left-to-right non-overlapping replacement over character lists, the core
of Python `str.replace` for a nonempty pattern `p :: ps`. The fuel argument
keeps the recursion structural; every step consumes at least one input
character and one unit of fuel, so with fuel initialized to the input length
the fuel never runs out before the input does. -/
def replaceFuel (p : Char) (ps rep : List Char) : Nat → List Char → List Char
  | _, [] => []
  | 0, s => s
  | fuel + 1, c :: cs =>
    if p = c ∧ isPrefixL ps cs then rep ++ replaceFuel p ps rep fuel (cs.drop ps.length)
    else c :: replaceFuel p ps rep fuel cs

/-- Python `s.replace(pattern, rep)`. The empty-pattern case never arises in
the embedded code (the only use site replaces `"</"`). -/
def pyReplace (s pattern rep : String) : String :=
  match pattern.toList with
  | [] => s
  | p :: ps => String.mk (replaceFuel p ps rep.toList s.toList.length s.toList)

/-- Serialization of a property value to JSON. -/
def pvalueToJv : PValue → Jv
  | .vstr s => .jstr s
  | .vint n => .jnum n
  | .vnull => .jnull

/-- Serialization of a property bag to a JSON object, keys in insertion
order. -/
def propsToJv (properties : List (String × PValue)) : Jv :=
  .jobj (properties.map (fun kv => (kv.1, pvalueToJv kv.2)))

/-- Serialization of one Cytoscape node element, field order as constructed
in the source (lines 163-175). -/
def cyNodeToJv (c : CyNode) : Jv :=
  .jobj [("data", .jobj
            [("id", .jstr c.data.id),
             ("label", .jstr c.data.label),
             ("labels", .jarr (c.data.labels.map Jv.jstr)),
             ("color", .jstr c.data.color),
             ("size", .jnum (c.data.size : Int)),
             ("tooltip", .jstr c.data.tooltip),
             ("properties", propsToJv c.data.properties),
             ("expanded", .jbool c.data.expanded)]),
          ("classes", .jstr c.classes)]

/-- Serialization of one Cytoscape edge element (lines 190-197). -/
def cyEdgeToJv (e : CyEdge) : Jv :=
  .jobj [("data", .jobj
            [("id", .jstr e.data.id),
             ("source", .jstr e.data.source),
             ("target", .jstr e.data.target),
             ("label", .jstr e.data.label)])]

/-- Serialization of the elements dictionary. -/
def elementsToJv (e : Elements) : Jv :=
  .jobj [("nodes", .jarr (e.nodes.map cyNodeToJv)),
         ("edges", .jarr (e.edges.map cyEdgeToJv))]

/-- The `elements_json` string interpolated into the HTML template (line
220): `json.dumps(elements).replace('</', '<\\/')`. -/
def elements_json (e : Elements) : String :=
  pyReplace (jsonDumps (elementsToJv e)) "</" "<\\/"

/-! ## cytoscape_graph.py: render_cytoscape_graph -/

/-- The fixed empty-state message (line 493). -/
def emptyStateMessage : String :=
  "No nodes to display. Upload and extract documents first."

/-- The payload emitted by `render_cytoscape_graph`: one of the three
template variants. The graph variant carries the elements dictionary, the
resolved layout name, the layout configuration interpolated by
`_build_html_template` (line 217), and the height; the empty-state and
error-state variants carry the message exactly as interpolated (already
HTML-escaped by the templates, lines 430 and 468). -/
inductive RenderResult where
  | emptyState (message : String)
  | errorState (message : String)
  | graph (elements : Elements) (layout : String)
      (layout_config : List (String × Cv)) (height : Nat)
deriving DecidableEq, Repr

/-- Whether a payload is the graph variant. -/
def RenderResult.isGraph : RenderResult → Bool
  | .graph _ _ _ _ => true
  | _ => false

/-- Whether a payload is the error-state variant. -/
def RenderResult.isErrorState : RenderResult → Bool
  | .errorState _ => true
  | _ => false

/-- The elements dictionary of a graph payload, if any. -/
def RenderResult.graphElements : RenderResult → Option Elements
  | .graph e _ _ _ => some e
  | _ => none

/-- The layout parameters of a graph payload, if any. -/
def RenderResult.layoutParams : RenderResult → Option (List (String × Cv))
  | .graph _ _ cfg _ => some cfg
  | _ => none

/-- cytoscape_graph.py `render_cytoscape_graph` (lines 475-525): empty-state
for an empty node list; schema truncation to the first 100 nodes with edge
re-filtering; fallback to `'cola'` for unknown layout names; dagre-to-circle
density override for large schema graphs; element conversion with the
expansion set defaulted to empty; graph payload carrying the layout
configuration resolved by `_build_html_template`. The `except` branch of the
source is unreachable here because every embedded operation is total. -/
def render_cytoscape_graph (nodes : List Node) (relationships : List Relationship)
    (layout : String) (expanded_nodes : Option (Finset String))
    (view_type : String) (height : Nat) : RenderResult :=
  if nodes = [] then .emptyState (htmlEscape emptyStateMessage)
  else
    let trunc :=
      if view_type = "schema" ∧ nodes.length > 100 then
        let nodes' := nodes.take 100
        let node_ids : Finset String := (nodes'.map Node.element_id).toFinset
        (nodes', relationships.filter (fun r =>
          decide (r.start_node_element_id ∈ node_ids ∧ r.end_node_element_id ∈ node_ids)))
      else (nodes, relationships)
    let nodes := trunc.1
    let relationships := trunc.2
    let layout := if (List.lookup layout LAYOUT_CONFIGS).isNone then "cola" else layout
    let layout := if view_type = "schema" ∧ nodes.length > 50 ∧ layout = "dagre"
      then "circle" else layout
    let expanded := expanded_nodes.getD ∅
    let elements := _convert_to_cytoscape_format nodes relationships expanded COLOR_SCHEME
    .graph elements layout ((List.lookup layout LAYOUT_CONFIGS).getD colaConfig) height

/-! ## Element-mapping lemmas -/

lemma get_visible_nodes_data_eq (ns : List Node) (rs : List Relationship)
    (E : Finset String) (vt : String) (h : vt ≠ "schema") :
    get_visible_nodes ns rs E vt =
      (ns.filter (fun n => decide (n.element_id ∈ visibleIdsData ns rs E)),
       rs.filter (fun r => decide (r.start_node_element_id ∈ visibleIdsData ns rs E ∧
         r.end_node_element_id ∈ visibleIdsData ns rs E))) := by
  rw [get_visible_nodes, if_neg h]

lemma convert_nodes_map_id (ns : List Node) (rs : List Relationship)
    (E : Finset String) (cs : List (String × String)) :
    (_convert_to_cytoscape_format ns rs E cs).nodes.map (fun c => c.data.id) =
      ns.map Node.element_id := by
  simp only [_convert_to_cytoscape_format, List.map_map]
  rfl

lemma convert_edge_endpoints (ns : List Node) (rs : List Relationship)
    (E : Finset String) (cs : List (String × String)) :
    ∀ e ∈ (_convert_to_cytoscape_format ns rs E cs).edges,
      e.data.source ∈ ns.map Node.element_id ∧
      e.data.target ∈ ns.map Node.element_id := by
  intro e he
  simp only [_convert_to_cytoscape_format, List.mem_filterMap] at he
  obtain ⟨r, hr, hf⟩ := he
  split at hf
  case isTrue h =>
    obtain ⟨h1, h2, h3, h4⟩ := h
    injection hf with hf
    subst hf
    exact ⟨List.mem_toFinset.mp h3, List.mem_toFinset.mp h4⟩
  case isFalse h =>
    cases hf

/-- Concrete relationship whose end endpoint id matches no input node. -/
def xRel : Relationship := ⟨some "r9", "d1", "x9", "T"⟩

/-- C1 counterexample: with a single Document node `d1` and one relationship
`d1 → x9` whose end endpoint belongs to no input node, the `data`-mode
output of `get_visible_nodes` contains that relationship even though `x9` is
not among the output node ids — the referential-closure invariant is NOT
enforced at the visibility-computation stage for such inputs. -/
theorem c1_referential_closure_counterexample :
    ∃ r ∈ (get_visible_nodes [dNode] [xRel] ∅ "data").2,
      r.end_node_element_id ∉
        (get_visible_nodes [dNode] [xRel] ∅ "data").1.map Node.element_id := by
  decide

/-- C1 (amended): the element-mapping stage (`_convert_to_cytoscape_format`)
enforces referential closure unconditionally; the visibility-computation
stage (`get_visible_nodes`) guarantees it only for inputs whose relationship
endpoints all occur among the input node ids. -/
theorem c1_referential_closure_amended :
    (∀ (ns : List Node) (rs : List Relationship) (E : Finset String) (vt : String),
      (∀ r ∈ rs, r.start_node_element_id ∈ ns.map Node.element_id ∧
                 r.end_node_element_id ∈ ns.map Node.element_id) →
      ∀ r ∈ (get_visible_nodes ns rs E vt).2,
        r.start_node_element_id ∈ (get_visible_nodes ns rs E vt).1.map Node.element_id ∧
        r.end_node_element_id ∈ (get_visible_nodes ns rs E vt).1.map Node.element_id) ∧
    (∀ (ns : List Node) (rs : List Relationship) (E : Finset String)
        (cs : List (String × String)),
      ∀ e ∈ (_convert_to_cytoscape_format ns rs E cs).edges,
        e.data.source ∈ (_convert_to_cytoscape_format ns rs E cs).nodes.map
          (fun c => c.data.id) ∧
        e.data.target ∈ (_convert_to_cytoscape_format ns rs E cs).nodes.map
          (fun c => c.data.id)) := by
  constructor
  · intro ns rs E vt hwf r hr
    by_cases hvt : vt = "schema"
    · rw [get_visible_nodes, if_pos hvt] at hr ⊢
      exact hwf r hr
    · rw [get_visible_nodes_data_eq ns rs E vt hvt] at hr ⊢
      rw [List.mem_filter, decide_eq_true_eq] at hr
      obtain ⟨hrs, hv⟩ := hr
      constructor
      · obtain ⟨n, hn, hid⟩ := List.mem_map.mp ((hwf r hrs).1)
        exact List.mem_map.mpr
          ⟨n, List.mem_filter.mpr ⟨hn, decide_eq_true (by rw [hid]; exact hv.1)⟩, hid⟩
      · obtain ⟨n, hn, hid⟩ := List.mem_map.mp ((hwf r hrs).2)
        exact List.mem_map.mpr
          ⟨n, List.mem_filter.mpr ⟨hn, decide_eq_true (by rw [hid]; exact hv.2)⟩, hid⟩
  · intro ns rs E cs e he
    rw [convert_nodes_map_id]
    exact convert_edge_endpoints ns rs E cs e he

/-- Witness for the amended C1 at a concrete input whose relationship
endpoints all occur among the node ids. -/
theorem c1_referential_closure_amended_witness :
    (∀ r ∈ [relDC], r.start_node_element_id ∈ [dNode, cNode].map Node.element_id ∧
        r.end_node_element_id ∈ [dNode, cNode].map Node.element_id) ∧
    (∀ r ∈ (get_visible_nodes [dNode, cNode] [relDC] ∅ "data").2,
        r.start_node_element_id ∈
          (get_visible_nodes [dNode, cNode] [relDC] ∅ "data").1.map Node.element_id ∧
        r.end_node_element_id ∈
          (get_visible_nodes [dNode, cNode] [relDC] ∅ "data").1.map Node.element_id) ∧
    (∀ e ∈ (_convert_to_cytoscape_format [dNode, cNode] [relDC] ∅ COLOR_SCHEME).edges,
        e.data.source ∈ (_convert_to_cytoscape_format [dNode, cNode] [relDC] ∅
            COLOR_SCHEME).nodes.map (fun c => c.data.id) ∧
        e.data.target ∈ (_convert_to_cytoscape_format [dNode, cNode] [relDC] ∅
            COLOR_SCHEME).nodes.map (fun c => c.data.id)) :=
  ⟨by decide,
   c1_referential_closure_amended.1 [dNode, cNode] [relDC] ∅ "data" (by decide),
   c1_referential_closure_amended.2 [dNode, cNode] [relDC] ∅ COLOR_SCHEME⟩

/-- Concrete node carrying markup in its first label, in a property key and
in a property value. -/
def demo2 : Node :=
  ⟨"n1", ["<i>T</i>"], [("<k>", .vstr "v"), ("name", .vstr "<b>x</b>")]⟩

set_option maxRecDepth 100000 in
/-- C2 counterexample: for a node whose `name` property is `"<b>x</b>"` and
whose first label is `"<i>T</i>"`, the element emitted by
`_convert_to_cytoscape_format` carries the raw, unescaped value in its
caption (`label`) field, and its tooltip interpolates the label list and the
property key without escaping — so not every string drawn from node data
passes through the escaping function before reaching the tooltip or caption
fields, and the value appears in the payload as raw markup. -/
theorem c2_escaping_counterexample :
    ((_convert_to_cytoscape_format [demo2] [] ∅ COLOR_SCHEME).nodes.map
        (fun c => c.data.label) = ["<b>x</b>"]) ∧
    htmlEscape "<b>x</b>" = "&lt;b&gt;x&lt;/b&gt;" ∧
    ("<b>x</b>" : String) ≠ "&lt;b&gt;x&lt;/b&gt;" ∧
    ((_convert_to_cytoscape_format [demo2] [] ∅ COLOR_SCHEME).nodes.map
        (fun c => c.data.tooltip) =
      ["<strong>&lt;b&gt;x&lt;/b&gt;</strong><br>Type: <i>T</i><br><k>: v<br>name: &lt;b&gt;x&lt;/b&gt;"]) := by
  decide

set_option maxRecDepth 100000 in
/-- C2 (amended): the resolved caption and each displayed property value do
pass through the escaping function where they enter the tooltip (values
truncated to 100 characters after escaping); the label list and the
property keys enter the tooltip unescaped, and the element's caption
(`label`) field receives the unescaped caption. -/
theorem c2_escaping_amended (n : Node) (E : Finset String)
    (cs : List (String × String)) (k : String) (v : PValue)
    (hk : (k, v) ∈ n.properties) (hres : k ∉ reservedKeys) (hv : truthy v = true) :
    (nodeToCy E cs n).data.tooltip =
      String.intercalate "<br>"
        (tooltip_parts (node_caption n) n.labels n.element_id E n.properties) ∧
    (tooltip_parts (node_caption n) n.labels n.element_id E n.properties).head? =
      some ("<strong>" ++ pyStr (escape_property_value (node_caption n)) ++ "</strong>") ∧
    (k ++ ": " ++ (pyStr (escape_property_value v)).take 100) ∈
      tooltip_parts (node_caption n) n.labels n.element_id E n.properties ∧
    (nodeToCy E cs n).data.label = (pyStr (node_caption n)).take 30 := by
  have hc : reservedKeys.contains k = false := by
    show List.elem k reservedKeys = false
    rw [List.elem_eq_mem]
    exact decide_eq_false hres
  refine ⟨?_, ?_, ?_, ?_⟩
  · simp only [nodeToCy]
  · simp only [tooltip_parts]
    split_ifs <;> rfl
  · simp only [tooltip_parts]
    split_ifs <;>
    · rw [List.mem_append]
      refine Or.inr (List.mem_filterMap.mpr ⟨(k, v), hk, ?_⟩)
      simp only [hc, hv, Bool.not_false, Bool.and_self, if_true]
  · simp only [nodeToCy]

/-- Witness for the amended C2 at the concrete node `demo2` and its `name`
property. -/
theorem c2_escaping_amended_witness :
    (("name", PValue.vstr "<b>x</b>") ∈ demo2.properties ∧
     "name" ∉ reservedKeys ∧ truthy (PValue.vstr "<b>x</b>") = true) ∧
    ("name" ++ ": " ++ (pyStr (escape_property_value (PValue.vstr "<b>x</b>"))).take 100) ∈
      tooltip_parts (node_caption demo2) demo2.labels demo2.element_id ∅ demo2.properties :=
  ⟨⟨by decide, by decide, by decide⟩,
   (c2_escaping_amended demo2 ∅ COLOR_SCHEME "name" (PValue.vstr "<b>x</b>")
      (by decide) (by decide) (by decide)).2.2.1⟩

/-! ## Caption resolution -/

/-- First present-and-truthy value of a list of optional values. -/
def firstTruthy : List (Option PValue) → Option PValue
  | [] => none
  | o :: rest =>
    match o with
    | some v => if truthy v then some v else firstTruthy rest
    | none => firstTruthy rest

/-- The caption resolution order as stated by the specification:
`properties.id`, then `properties.name`, then `properties.fileName`, then
`labels[0]`, then the literal fallback `"Node"`; an entry is selected when
it is present and truthy. -/
def specCaption (n : Node) : PValue :=
  match firstTruthy [pget n.properties "id", pget n.properties "name",
                     pget n.properties "fileName"] with
  | some v => v
  | none => .vstr (n.labels.head?.getD "Node")

lemma node_caption_eq_specCaption (n : Node) : node_caption n = specCaption n := by
  cases h1 : pget n.properties "id" <;> cases h2 : pget n.properties "name" <;>
    cases h3 : pget n.properties "fileName" <;>
      simp only [node_caption, specCaption, firstTruthy, pyOrV, h1, h2, h3] <;>
      split_ifs <;> rfl

/-- C8: for every mapped node, the emitted caption (`label`) field equals
the caption resolved in the specification's fixed order — `properties.id`,
`properties.name`, `properties.fileName`, `labels[0]`, literal `"Node"` —
stringified and truncated to 30 characters. -/
theorem c8_caption_resolution (ns : List Node) (rs : List Relationship)
    (E : Finset String) (cs : List (String × String)) :
    (_convert_to_cytoscape_format ns rs E cs).nodes.map (fun c => c.data.label) =
      ns.map (fun n => (pyStr (specCaption n)).take 30) := by
  simp only [_convert_to_cytoscape_format, List.map_map]
  refine List.map_congr_left ?_
  intro n _
  simp only [Function.comp_apply]
  rw [← node_caption_eq_specCaption]
  simp only [nodeToCy]

/-- Concrete node whose property bag holds markup under the reserved key
`text` and a value under the reserved key `embedding`. -/
def demo9 : Node :=
  ⟨"n1", ["Chunk"], [("text", .vstr "<b>x</b>"), ("embedding", .vstr "e1")]⟩

set_option maxRecDepth 1000000 in
/-- C9: every mapped element embeds the node's entire original properties
mapping verbatim — reserved keys included — under its `properties` field;
the reserved-key exclusion applies only to the tooltip text (for `demo9` the
tooltip mentions neither `text` nor `embedding`); and the serialized payload
protects the embedded properties only by JSON encoding plus replacement of
`"</"` by `"<\\/"`, so the reserved `text` value `"<b>x</b>"` reaches the
emitted markup as raw (non-HTML-escaped) text. -/
theorem c9_properties_verbatim :
    (∀ (ns : List Node) (rs : List Relationship) (E : Finset String)
        (cs : List (String × String)),
      (_convert_to_cytoscape_format ns rs E cs).nodes.map (fun c => c.data.properties) =
        ns.map Node.properties) ∧
    ((_convert_to_cytoscape_format [demo9] [] ∅ COLOR_SCHEME).nodes.map
        (fun c => c.data.tooltip) = ["<strong>Chunk</strong><br>Type: Chunk"]) ∧
    containsSubstring (elements_json (_convert_to_cytoscape_format [demo9] [] ∅ COLOR_SCHEME))
      "\"properties\": \x7b\"text\": \"<b>x<\\/b>\", \"embedding\": \"e1\"\x7d" = true ∧
    containsSubstring (elements_json (_convert_to_cytoscape_format [demo9] [] ∅ COLOR_SCHEME))
      "&lt;" = false := by
  refine ⟨?_, by decide, by decide, by decide⟩
  intro ns rs E cs
  simp only [_convert_to_cytoscape_format, List.map_map]
  refine List.map_congr_left ?_
  intro n _
  simp only [Function.comp_apply]
  simp only [nodeToCy]

/-! ## render_cytoscape_graph claims -/

/-- C5: in schema view with more than 100 input nodes,
`render_cytoscape_graph` truncates to the first 100 nodes before element
mapping, re-filters the relationships against the surviving node-id set,
and emits a graph payload with exactly 100 nodes whose ids are the stable
prefix of the input order, and only edges between those nodes. -/
theorem c5_schema_truncation (ns : List Node) (rs : List Relationship)
    (layout : String) (E : Option (Finset String)) (height : Nat)
    (h : 100 < ns.length) :
    (render_cytoscape_graph ns rs layout E "schema" height).graphElements =
      some (_convert_to_cytoscape_format (ns.take 100)
        (rs.filter (fun r =>
          decide (r.start_node_element_id ∈ ((ns.take 100).map Node.element_id).toFinset ∧
                  r.end_node_element_id ∈ ((ns.take 100).map Node.element_id).toFinset)))
        (E.getD ∅) COLOR_SCHEME) ∧
    ((render_cytoscape_graph ns rs layout E "schema" height).graphElements.map
        (fun els => els.nodes.map (fun c => c.data.id))) =
      some ((ns.take 100).map Node.element_id) ∧
    ((render_cytoscape_graph ns rs layout E "schema" height).graphElements.map
        (fun els => els.nodes.length)) = some 100 ∧
    (∀ els, (render_cytoscape_graph ns rs layout E "schema" height).graphElements = some els →
      ∀ e ∈ els.edges,
        e.data.source ∈ (ns.take 100).map Node.element_id ∧
        e.data.target ∈ (ns.take 100).map Node.element_id) := by
  have hne : ns ≠ [] := by
    intro h0
    rw [h0] at h
    simp at h
  simp only [render_cytoscape_graph, if_neg hne, gt_iff_lt, h, eq_self_iff_true,
    true_and, and_true, if_true, RenderResult.graphElements, Option.map_some']
  refine ⟨?_, ?_, ?_⟩
  · rw [convert_nodes_map_id]
  · simp only [_convert_to_cytoscape_format, List.length_map, List.length_take]
    rw [Nat.min_eq_left h.le]
  · intro els hels e he
    injection hels with hels
    subst hels
    exact convert_edge_endpoints _ _ _ _ e he

/-- Witness for C5 at 150 identical schema nodes. -/
theorem c5_schema_truncation_witness :
    100 < (List.replicate 150 dNode).length ∧
    ((render_cytoscape_graph (List.replicate 150 dNode) [] "cola" none "schema" 720).graphElements.map
        (fun els => els.nodes.length)) = some 100 :=
  ⟨by rw [List.length_replicate]; norm_num,
   (c5_schema_truncation (List.replicate 150 dNode) [] "cola" none 720
      (by rw [List.length_replicate]; norm_num)).2.2.1⟩

/-- C6: for a requested layout name outside the preset table, a nonempty
graph renders to a graph payload (never the error state) whose layout
parameters are exactly the `'cola'` preset's parameters. -/
theorem c6_unknown_layout_fallback (ns : List Node) (rs : List Relationship)
    (layout : String) (E : Option (Finset String)) (vt : String) (height : Nat)
    (hlayout : List.lookup layout LAYOUT_CONFIGS = none) (hne : ns ≠ []) :
    (render_cytoscape_graph ns rs layout E vt height).layoutParams = some colaConfig ∧
    (render_cytoscape_graph ns rs layout E vt height).isErrorState = false := by
  have hcd : (("cola" : String) = "dagre") = False := by
    simp
  simp only [render_cytoscape_graph, if_neg hne, hlayout, Option.isNone_none, if_true,
    hcd, and_false, if_false, RenderResult.layoutParams, RenderResult.isErrorState]
  exact ⟨by trivial, by trivial⟩

/-- Witness for C6 with the unknown layout name `"foo"`. -/
theorem c6_unknown_layout_fallback_witness :
    List.lookup "foo" LAYOUT_CONFIGS = none ∧ ([dNode] : List Node) ≠ [] ∧
    (render_cytoscape_graph [dNode] [] "foo" none "data" 720).layoutParams =
      some colaConfig :=
  ⟨by decide, by decide,
   (c6_unknown_layout_fallback [dNode] [] "foo" none "data" 720 (by decide) (by decide)).1⟩

set_option maxRecDepth 100000 in
/-- C7: `render_cytoscape_graph` is total and always returns one of the
payload variants: the empty-state payload carrying the fixed explanatory
message exactly when the node list is empty, otherwise a graph payload; the
error-state variant is never produced (the embedded pipeline is total, so
the source's exception handler is unreachable). -/
theorem c7_total_payload (ns : List Node) (rs : List Relationship)
    (layout : String) (E : Option (Finset String)) (vt : String) (height : Nat) :
    ((render_cytoscape_graph ns rs layout E vt height) =
        RenderResult.emptyState emptyStateMessage ↔ ns = []) ∧
    (render_cytoscape_graph ns rs layout E vt height).isErrorState = false ∧
    (render_cytoscape_graph ns rs layout E vt height).isGraph = !ns.isEmpty := by
  have hesc : htmlEscape emptyStateMessage = emptyStateMessage := by decide
  cases ns with
  | nil =>
    simp [render_cytoscape_graph, hesc, RenderResult.isErrorState, RenderResult.isGraph]
  | cons a l =>
    have hne : (a :: l) ≠ ([] : List Node) := by simp
    simp only [render_cytoscape_graph, if_neg hne]
    refine ⟨?_, rfl, rfl⟩
    constructor
    · intro hcontra
      exact RenderResult.noConfusion hcontra
    · intro hcontra
      exact absurd hcontra hne
